import Mathlib

/-!
Verification of the core logic of the `plugin-github-comics` repository
(`src/index.ts`): the prompt builder `createComicPrompt`, the repository
fetcher `fetchRepositories`, and the image requester `generateComicImage`.

JavaScript dynamic values are modelled by `JSNumber` (NaN, the two
infinities, and finite numbers as rationals) and `JSVal`; a repository
object is a record of four dynamic fields (a missing field reads as
`undefined`). The network and the image provider are modelled by passing
the HTTP response, respectively the provider outcome, as an explicit
argument to the function that consumes it; everything up to that argument
is the code's own logic, translated clause by clause.
-/

/-- A JavaScript number: NaN, +Infinity, -Infinity, or a finite value.
Finite values are modelled as rationals (every float is a rational; the
claims only exercise integral and simple fractional values). -/
inductive JSNumber where
  | nan
  | posInf
  | negInf
  | finite (q : ℚ)
deriving DecidableEq, Repr

/-- A JavaScript value as it can appear in a repository field. -/
inductive JSVal where
  | undefined
  | null
  | bool (b : Bool)
  | num (n : JSNumber)
  | str (s : String)
deriving DecidableEq, Repr

/-- `isNaN n` of JavaScript. -/
def JSNumber.isNaNb : JSNumber → Bool
  | .nan => true
  | _ => false

/-- The JavaScript comparison `n < 1` (false on NaN and +Infinity,
true on -Infinity). -/
def JSNumber.jsLtOne : JSNumber → Bool
  | .nan => false
  | .posInf => false
  | .negInf => true
  | .finite q => decide (q < 1)

/-- JavaScript truthiness of a number: false exactly for NaN and 0. -/
def JSNumber.truthy : JSNumber → Bool
  | .nan => false
  | .posInf => true
  | .negInf => true
  | .finite q => decide (q ≠ 0)

/-- Template-literal stringification of a number. Integral values print in
decimal as JavaScript does; non-integral values are printed as a fraction —
this diverges from JavaScript's decimal rendering, but no claim evaluates
the rendering of a non-integral number. -/
def JSNumber.render : JSNumber → String
  | .nan => "NaN"
  | .posInf => "Infinity"
  | .negInf => "-Infinity"
  | .finite q => if q.den = 1 then toString q.num else toString q.num ++ "/" ++ toString q.den

/-- JavaScript truthiness of a value. -/
def JSVal.truthy : JSVal → Bool
  | .undefined => false
  | .null => false
  | .bool b => b
  | .num n => n.truthy
  | .str s => decide (s ≠ "")

/-- Template-literal stringification of a value. -/
def JSVal.render : JSVal → String
  | .undefined => "undefined"
  | .null => "null"
  | .bool b => if b then "true" else "false"
  | .num n => n.render
  | .str s => s

/-- A repository object as `createComicPrompt` reads it: the four fields
accessed by the code, each a dynamic value (`undefined` when absent).
Mirrors the `RepoInfo` interface of `src/index.ts`. -/
structure RepoVal where
  name : JSVal
  description : JSVal
  stargazers_count : JSVal
  language : JSVal
deriving DecidableEq, Repr

/-- A dynamic argument to `createComicPrompt`: a primitive, a non-array
object, or an array of repository objects. -/
inductive JSArg where
  | undefined
  | null
  | bool (b : Bool)
  | num (n : JSNumber)
  | str (s : String)
  | obj
  | arr (rs : List RepoVal)
deriving DecidableEq, Repr

/-- `Array.isArray` on an argument. -/
def JSArg.isArrayB : JSArg → Bool
  | .arr _ => true
  | _ => false

/-- The guard of line 121, `!r.name || typeof r.name !== 'string'`:
true unless `name` is a non-empty string (the empty string is a string
but falsy, so it also trips the guard). -/
def badName : JSVal → Bool
  | .str s => s == ""
  | _ => true

/-- `user.trim()`: leading and trailing whitespace removed. Implemented
over the character list so it evaluates by kernel reduction; JavaScript
trims a slightly larger Unicode whitespace set, which no claim exercises. -/
def jsTrim (s : String) : String :=
  ⟨((s.data.dropWhile Char.isWhitespace).reverse.dropWhile Char.isWhitespace).reverse⟩

/-- The guard of line 109, `typeof user !== 'string' || user.trim().length === 0`. -/
def badUser : JSArg → Bool
  | .str u => decide ((jsTrim u).length = 0)
  | _ => true

/-- The guard of line 113, `typeof count !== 'number' || isNaN(count) || count < 1`. -/
def badCount : JSArg → Bool
  | .num n => n.isNaNb || n.jsLtOne
  | _ => true

/-- The end index computed by `repos.slice(0, count)`: `ToIntegerOrInfinity`
truncates `count` toward zero, a negative index counts from the end, and
the result is clamped to the array length. -/
def sliceEndIndex (len : Nat) : JSNumber → Nat
  | .nan => 0
  | .posInf => len
  | .negInf => 0
  | .finite q =>
    let t : Int := if q < 0 then -Rat.floor (-q) else Rat.floor q
    if t < 0 then Int.toNat ((len : Int) + t) else min t.toNat len

/-- `repos.slice(0, count)` (line 117). -/
def jsSliceTo (count : JSNumber) (xs : List RepoVal) : List RepoVal :=
  xs.take (sliceEndIndex xs.length count)

/-- The star segment of line 125: rendered only when `stargazers_count`
is truthy. The three characters before the number are the literal bytes
of the source file. -/
def starSeg (v : JSVal) : String :=
  if v.truthy then " (‚≠ê " ++ v.render ++ ")" else ""

/-- The language segment of line 126: rendered only when `language` is truthy. -/
def langSeg (v : JSVal) : String :=
  if v.truthy then " [" ++ v.render ++ "]" else ""

/-- `r.description ?? 'No description'`, stringified (line 127): nullish
coalescing replaces only `null` and `undefined`. -/
def descText : JSVal → String
  | .undefined => "No description"
  | .null => "No description"
  | v => v.render

/-- The line rendered for the repository at 0-based position `idx`
(line 127): the display index is `idx + 1`. -/
def lineOf (idx : Nat) (r : RepoVal) : String :=
  toString (idx + 1) ++ ". " ++ r.name.render ++ langSeg r.language ++
    starSeg r.stargazers_count ++ ": " ++ descText r.description

/-- The error message of line 122. -/
def nameErrMsg (idx : Nat) : String :=
  "Repository at index " ++ toString idx ++ " is missing required field: name"

/-- The body of the `map` callback of lines 119-127 for one repository. -/
def renderRepo (idx : Nat) (r : RepoVal) : Except String String :=
  if badName r.name then .error (nameErrMsg idx) else .ok (lineOf idx r)

/-- `topRepos.map(...)` of lines 119-128: the callback runs left to right
and a `throw` aborts at the first offending element. -/
def renderReposAux : Nat → List RepoVal → Except String (List String)
  | _, [] => .ok []
  | idx, r :: rs =>
    match renderRepo idx r with
    | .error e => .error e
    | .ok line =>
      match renderReposAux (idx + 1) rs with
      | .error e => .error e
      | .ok rest => .ok (line :: rest)

/-- The template literal of lines 130-135 with the username and the
joined repository lines interpolated. -/
def promptTemplate (user details : String) : String :=
  "Create a humorous 4-panel comic strip about GitHub user \"" ++ user ++
    "\" and their coding projects.\n\nTheir top repositories:\n" ++ details ++
    "\n\nStyle: Comic book style, colorful, fun and playful. Each panel should tell part of the story about their coding journey. Make it lighthearted and encouraging."

/-- `createComicPrompt` (lines 103-136) over dynamic arguments: the three
validations in source order, then slice, render, join, and the template. -/
def createComicPrompt (repos user count : JSArg) : Except String String :=
  match repos with
  | .arr rs =>
    match user with
    | .str u =>
      if (jsTrim u).length = 0 then .error "user must be a non-empty string"
      else
        match count with
        | .num c =>
          if c.isNaNb || c.jsLtOne then .error "count must be a positive number"
          else
            match renderReposAux 0 (jsSliceTo c rs) with
            | .error e => .error e
            | .ok lines => .ok (promptTemplate u (String.intercalate "\n" lines))
        | _ => .error "count must be a positive number"
    | _ => .error "user must be a non-empty string"
  | _ => .error "repos must be an array"

/-- A character allowed by the username regex of line 46:
`[a-z\d]` under the `i` flag, i.e. an ASCII letter or digit. -/
def isUserChar (c : Char) : Bool := c.isAlpha || c.isDigit

/-- The regex tail `(?:[a-z\d]|-(?=[a-z\d])){0,38}` run on the characters
after the first: each item consumes one character, a hyphen only with an
alphanumeric lookahead. -/
def userTail : List Char → Bool
  | [] => true
  | c :: rest =>
    if isUserChar c then userTail rest
    else if c = '-' then
      match rest with
      | [] => false
      | c2 :: _ => isUserChar c2 && userTail rest
    else false

/-- `USERNAME_REGEX.test(user)` for the anchored regex of line 46:
an alphanumeric first character, then at most 38 further items. -/
def validUsername (s : String) : Bool :=
  match s.toList with
  | [] => false
  | c :: rest => isUserChar c && decide (rest.length ≤ 38) && userTail rest

/-- No two consecutive hyphens anywhere in the list. -/
def noHyphenRun : List Char → Bool
  | [] => true
  | [_] => true
  | c :: c2 :: rest => !(c == '-' && c2 == '-') && noHyphenRun (c2 :: rest)

/-- The last character, if any, is alphanumeric (vacuously true of the
empty list; the grammar separately requires nonemptiness). -/
def lastAlnum : List Char → Bool
  | [] => true
  | [c] => isUserChar c
  | _ :: c :: rest => lastAlnum (c :: rest)

/-- The GitHub login grammar exactly as the spec words it: 1 to 39
characters, alphanumeric with hyphens, and a hyphen never leading,
trailing, or doubled. Stated independently of `validUsername` so that
their equivalence is a theorem. -/
def githubLoginGrammar (s : String) : Bool :=
  let cs := s.toList
  decide (1 ≤ cs.length) && decide (cs.length ≤ 39) &&
  cs.all (fun c => isUserChar c || c == '-') &&
  (match cs with
   | [] => false
   | c :: _ => isUserChar c) &&
  lastAlnum cs &&
  noHyphenRun cs

/-- The JSON body of the repository-list response: a sequence of
repository objects, or anything that is not a sequence. -/
inductive JsonBody where
  | arr (xs : List RepoVal)
  | nonArray
deriving DecidableEq, Repr

/-- An HTTP response as `fetchRepositories` consumes it; `ok` is derived
from the status as `node-fetch` does. -/
structure HttpResponse where
  status : Nat
  statusText : String
  body : JsonBody
deriving DecidableEq, Repr

/-- `res.ok` of `node-fetch`: status in the 200-299 range. -/
def respOk (status : Nat) : Bool := 200 ≤ status && status < 300

/-- The `errorDetail` ternary of lines 68-72. -/
def statusDetail (status : Nat) (statusText : String) : String :=
  if status = 404 then "User not found"
  else if status = 403 then "API rate limit exceeded. Use GITHUB_TOKEN for higher limits."
  else statusText

/-- The field-by-field mapping of lines 86-91: `name`, `description`,
`stargazers_count`, `language` are passed through unchanged. -/
def mapRepo (r : RepoVal) : RepoVal :=
  { name := r.name, description := r.description,
    stargazers_count := r.stargazers_count, language := r.language }

/-- The message of line 48. -/
def usernameErrMsg (user : String) : String := "Invalid GitHub username: " ++ user

/-- Lines 66-91 of `fetchRepositories`: the error contract applied to the
HTTP response after the network call. -/
def handleResponse (user : String) (res : HttpResponse) : Except String (List RepoVal) :=
  if !respOk res.status then
    .error ("Failed to fetch repos for " ++ user ++ ": " ++ toString res.status ++ " " ++
      statusDetail res.status res.statusText)
  else
    match res.body with
    | .nonArray => .error "Invalid response from GitHub API"
    | .arr [] => .error ("User \x27" ++ user ++ "\x27 has no public repositories")
    | .arr xs => .ok (xs.map mapRepo)

/-- `fetchRepositories` (lines 44-92) with the network response passed
explicitly: an invalid username fails before the response is ever
consulted; a valid one hands the response to the error contract. -/
def fetchRepositories (user : String) (res : HttpResponse) : Except String (List RepoVal) :=
  if validUsername user then handleResponse user res
  else .error (usernameErrMsg user)

/-- A JavaScript throwable: an `Error` carrying a message, or any
non-`Error` value. -/
inductive Throwable where
  | err (msg : String)
  | nonError (tag : String)
deriving DecidableEq, Repr

/-- A file payload returned by the image provider. -/
structure GenFile where
  mediaType : String
deriving DecidableEq, Repr

/-- The outcome of the provider call inside `generateComicImage`: the
call threw, or returned a list of file payloads and a finish reason. -/
inductive ProviderOutcome where
  | fail (e : Throwable)
  | success (files : List GenFile) (finishReason : String)
deriving DecidableEq, Repr

/-- The message of lines 161-164. -/
def noImagesMsg (finishReason : String) : String :=
  "No images were generated. Finish reason: " ++ finishReason ++
    ". Make sure you have credits and the model supports image generation."

/-- `file.mediaType.startsWith('image/')` of line 173, implemented over
character lists so it evaluates by kernel reduction. -/
def strStartsWith (s pre : String) : Bool := pre.data.isPrefixOf s.data

/-- The `try` body of lines 152-187: provider call, the zero-files check,
and the media-type check on the first payload. File-system effects
(directory creation, the write) carry no claim and are not modelled. -/
def generateComicBody (outcome : ProviderOutcome) : Except Throwable GenFile :=
  match outcome with
  | .fail e => .error e
  | .success files finishReason =>
    match files with
    | [] => .error (.err (noImagesMsg finishReason))
    | f :: _ =>
      if !(strStartsWith f.mediaType "image/") then
        .error (.err ("Invalid file type: " ++ f.mediaType))
      else .ok f

/-- `generateComicImage` (lines 147-194): the `catch` of lines 188-193
wraps an `Error` with the fixed prefix and re-raises anything else
unchanged. -/
def generateComicImage (outcome : ProviderOutcome) : Except Throwable GenFile :=
  match generateComicBody outcome with
  | .ok f => .ok f
  | .error (.err m) => .error (.err ("Failed to generate comic: " ++ m))
  | .error (.nonError t) => .error (.nonError t)

/-- The lines rendered for a list of repositories starting at 0-based
position `k`, assuming every name check passes. -/
def linesFrom (k : Nat) : List RepoVal → List String
  | [] => []
  | r :: rs => lineOf k r :: linesFrom (k + 1) rs

/-- The position of the first repository failing the name check, counting
from `k`. -/
def firstBadIdx (k : Nat) : List RepoVal → Option Nat
  | [] => none
  | r :: rs => if badName r.name then some k else firstBadIdx (k + 1) rs

theorem strAppend_assoc (a b c : String) : a ++ b ++ c = a ++ (b ++ c) := by
  apply String.ext
  simp [String.data_append, List.append_assoc]

theorem linesFrom_length (rs : List RepoVal) : ∀ k, (linesFrom k rs).length = rs.length := by
  induction rs with
  | nil => intro k; rfl
  | cons r rs ih => intro k; simp [linesFrom, ih]

theorem renderReposAux_ok (rs : List RepoVal) :
    ∀ k, (∀ r ∈ rs, badName r.name = false) →
    renderReposAux k rs = .ok (linesFrom k rs) := by
  induction rs with
  | nil => intro k _; rfl
  | cons r rs ih =>
    intro k h
    have h1 : badName r.name = false := h r (List.mem_cons_self r rs)
    have h2 := ih (k + 1) (fun x hx => h x (List.mem_cons_of_mem r hx))
    simp [renderReposAux, renderRepo, h1, h2, linesFrom]

theorem renderReposAux_err (rs : List RepoVal) :
    ∀ k j, firstBadIdx k rs = some j →
    renderReposAux k rs = .error (nameErrMsg j) := by
  induction rs with
  | nil => intro k j h; simp [firstBadIdx] at h
  | cons r rs ih =>
    intro k j h
    by_cases hb : badName r.name = true
    · simp [firstBadIdx, hb] at h
      simp [renderReposAux, renderRepo, hb, h]
    · simp at hb
      simp [firstBadIdx, hb] at h
      simp [renderReposAux, renderRepo, hb, ih (k + 1) j h]

theorem firstBadIdx_none_iff (rs : List RepoVal) :
    ∀ k, (firstBadIdx k rs = none ↔ ∀ r ∈ rs, badName r.name = false) := by
  induction rs with
  | nil => intro k; simp [firstBadIdx]
  | cons r rs ih =>
    intro k
    by_cases hb : badName r.name = true
    · simp [firstBadIdx, hb]
    · simp at hb
      simp [firstBadIdx, hb, ih (k + 1)]

theorem take_min_eq (xs : List RepoVal) (n : Nat) : xs.take (min n xs.length) = xs.take n := by
  rcases Nat.le_total n xs.length with h | h
  · rw [Nat.min_eq_left h]
  · rw [Nat.min_eq_right h, List.take_length, List.take_of_length_le h]

theorem sliceEndIndex_natCast (len n : Nat) :
    sliceEndIndex len (.finite (n : ℚ)) = min n len := by
  have h0 : ¬((n : ℚ) < 0) := not_lt.mpr (Nat.cast_nonneg n)
  have hfl : Rat.floor ((n : ℚ)) = (n : ℤ) := by
    rw [Rat.floor_def', Rat.num_natCast, Rat.den_natCast]
    simp
  simp [sliceEndIndex, h0, hfl]

theorem sliceEndIndex_one_le (len : Nat) (q : ℚ) (hq : 1 ≤ q) :
    sliceEndIndex len (.finite q) = min (Rat.floor q).toNat len := by
  have h0 : ¬(q < 0) := by linarith
  have hfl : (1 : ℤ) ≤ Rat.floor q := Rat.le_floor.mpr (by exact_mod_cast hq)
  have hnn : ¬(Rat.floor q < 0) := by omega
  simp [sliceEndIndex, h0, hnn]

theorem jsSliceTo_natCast (xs : List RepoVal) (n : Nat) :
    jsSliceTo (.finite (n : ℚ)) xs = xs.take n := by
  rw [jsSliceTo, sliceEndIndex_natCast, take_min_eq]

theorem jsSliceTo_one_le (xs : List RepoVal) (q : ℚ) (hq : 1 ≤ q) :
    jsSliceTo (.finite q) xs = xs.take (Rat.floor q).toNat := by
  rw [jsSliceTo, sliceEndIndex_one_le _ _ hq, take_min_eq]

theorem createComicPrompt_valid_eq (rs : List RepoVal) (u : String) (c : JSNumber)
    (hu : ¬((jsTrim u).length = 0)) (hnan : c.isNaNb = false) (hlt : c.jsLtOne = false) :
    createComicPrompt (.arr rs) (.str u) (.num c) =
      Except.map (fun ls => promptTemplate u (String.intercalate "\n" ls))
        (renderReposAux 0 (jsSliceTo c rs)) := by
  simp only [createComicPrompt, hu, hnan, hlt, if_false, Bool.or_self]
  cases h : renderReposAux 0 (jsSliceTo c rs) <;> simp [Except.map]

theorem isUserChar_hyphen : isUserChar (Char.ofNat 45) = false := by decide

theorem noHyphenRun_cons (c : Char) (cs : List Char) (hc : c ≠ '-') :
    noHyphenRun (c :: cs) = noHyphenRun cs := by
  cases cs with
  | nil => rfl
  | cons c2 tl => simp [noHyphenRun, hc]

theorem lastAlnum_cons (c c2 : Char) (cs : List Char) :
    lastAlnum (c :: c2 :: cs) = lastAlnum (c2 :: cs) := rfl

theorem userTail_eq (rest : List Char) :
    userTail rest =
      (rest.all (fun c => isUserChar c || c == '-') && lastAlnum rest && noHyphenRun rest) := by
  induction rest with
  | nil => rfl
  | cons c tl ih =>
    cases tl with
    | nil =>
      by_cases hc : isUserChar c = true
      · simp [userTail, hc, lastAlnum, noHyphenRun]
      · by_cases hd : c = '-'
        · subst hd; simp [userTail, lastAlnum, isUserChar_hyphen]
        · simp [userTail, hc, hd, lastAlnum]
    | cons c2 tl2 =>
      by_cases hc : isUserChar c = true
      · have hnd : c ≠ '-' := by
          intro h; subst h; rw [isUserChar_hyphen] at hc; exact Bool.false_ne_true hc
        rw [show userTail (c :: c2 :: tl2) = userTail (c2 :: tl2) by simp [userTail, hc]]
        rw [ih, lastAlnum_cons, noHyphenRun_cons _ _ hnd]
        simp [hc]
      · by_cases hd : c = '-'
        · subst hd
          by_cases h2 : isUserChar c2 = true
          · have hnd2 : c2 ≠ '-' := by
              intro h; subst h; rw [isUserChar_hyphen] at h2; exact Bool.false_ne_true h2
            rw [show userTail ('-' :: c2 :: tl2) = (isUserChar c2 && userTail (c2 :: tl2)) by
              simp [userTail, isUserChar_hyphen]]
            rw [ih, lastAlnum_cons]
            rw [show noHyphenRun ('-' :: c2 :: tl2) = noHyphenRun (c2 :: tl2) by
              simp [noHyphenRun, hnd2]]
            simp [h2, isUserChar_hyphen]
          · rw [show userTail ('-' :: c2 :: tl2) = (isUserChar c2 && userTail (c2 :: tl2)) by
              simp [userTail, isUserChar_hyphen]]
            simp only [Bool.not_eq_true] at h2
            by_cases hd2 : c2 = '-'
            · subst hd2
              simp [noHyphenRun, h2]
            · simp [h2, hd2]
        · simp [userTail, hc, hd]

theorem validUsername_eq_grammar (s : String) : validUsername s = githubLoginGrammar s := by
  rw [Bool.eq_iff_iff]
  simp only [validUsername, githubLoginGrammar]
  cases hcs : s.toList with
  | nil => simp
  | cons c rest =>
    dsimp only
    by_cases hc : isUserChar c = true
    · have hnd : c ≠ '-' := by
        intro h; subst h; rw [isUserChar_hyphen] at hc; exact Bool.false_ne_true hc
    -- both sides reduce to the same three conditions on `rest`
      rw [userTail_eq, noHyphenRun_cons _ _ hnd]
      cases rest with
      | nil => simp [hc, lastAlnum, noHyphenRun]
      | cons c2 tl =>
        rw [lastAlnum_cons]
        simp only [hc, Bool.and_eq_true, Bool.or_eq_true, List.all_cons, List.all_eq_true,
          List.length_cons, decide_eq_true_eq, true_and, true_or, Bool.true_and, noHyphenRun]
        constructor
        · rintro ⟨h38, ⟨⟨hb, hall⟩, hlast⟩, hrun⟩
          exact ⟨⟨⟨⟨⟨by omega, by omega⟩, hb, hall⟩, trivial⟩, hlast⟩, hrun⟩
        · rintro ⟨⟨⟨⟨⟨h1, h39⟩, hb, hall⟩, -⟩, hlast⟩, hrun⟩
          exact ⟨by omega, ⟨⟨hb, hall⟩, hlast⟩, hrun⟩
    · simp only [Bool.and_eq_true, Bool.or_eq_true, List.all_eq_true, decide_eq_true_eq]
      constructor
      · rintro ⟨⟨h1, _⟩, _⟩; exact absurd h1 hc
      · rintro ⟨⟨⟨_, h1⟩, _⟩, _⟩; exact absurd h1 hc

theorem createComicPrompt_ok_inv {rs : List RepoVal} {u : String} {count : JSArg} {p : String}
    (h : createComicPrompt (.arr rs) (.str u) count = .ok p) :
    ∃ d, p = promptTemplate u d := by
  simp only [createComicPrompt] at h
  by_cases hu : (jsTrim u).length = 0
  · simp [hu] at h
  · simp only [hu, if_false] at h
    cases count with
    | num c =>
      by_cases hc : (c.isNaNb || c.jsLtOne) = true
      · simp [hc] at h
      · simp only [Bool.not_eq_true] at hc
        simp only [hc, Bool.false_eq_true, if_false] at h
        cases hr : renderReposAux 0 (jsSliceTo c rs) with
        | error e => rw [hr] at h; simp at h
        | ok lines =>
          rw [hr] at h
          simp only [Except.ok.injEq] at h
          exact ⟨_, h.symm⟩
    | undefined => simp at h
    | null => simp at h
    | bool b => simp at h
    | str s2 => simp at h
    | obj => simp at h
    | arr rs2 => simp at h

theorem promptTemplate_split (u d : String) :
    promptTemplate u d =
      "Create a humorous " ++ ("4-panel comic strip" ++ (" about GitHub user \"" ++ (u ++
        ("\" and their coding projects.\n\nTheir top repositories:\n" ++ (d ++
          "\n\nStyle: Comic book style, colorful, fun and playful. Each panel should tell part of the story about their coding journey. Make it lighthearted and encouraging."))))) := by
  have hA : ("Create a humorous 4-panel comic strip about GitHub user \"" : String) =
      "Create a humorous " ++ ("4-panel comic strip" ++ " about GitHub user \"") := by decide
  simp only [promptTemplate, strAppend_assoc, hA]

/-- C2: `createComicPrompt` validates in a fixed order with exact
messages: any non-array `repos` fails with "repos must be an array"
whatever the other arguments are; with an array, any non-string or
blank-after-trim user fails with "user must be a non-empty string"
whatever `count` is; with a valid user, any non-number, NaN, or
below-one `count` fails with "count must be a positive number". -/
theorem claim_C2 :
    (∀ repos user count : JSArg, repos.isArrayB = false →
      createComicPrompt repos user count = .error "repos must be an array")
    ∧ (∀ (rs : List RepoVal) (user count : JSArg), badUser user = true →
      createComicPrompt (.arr rs) user count = .error "user must be a non-empty string")
    ∧ (∀ (rs : List RepoVal) (u : String) (count : JSArg), badUser (.str u) = false →
      badCount count = true →
      createComicPrompt (.arr rs) (.str u) count = .error "count must be a positive number") := by
  refine ⟨?_, ?_, ?_⟩
  · intro repos user count h
    cases repos <;> first
      | rfl
      | simp [JSArg.isArrayB] at h
  · intro rs user count h
    cases user with
    | str u =>
      simp only [badUser, decide_eq_true_eq] at h
      simp [createComicPrompt, h]
    | undefined => rfl
    | null => rfl
    | bool b => rfl
    | num n => rfl
    | obj => rfl
    | arr rs2 => rfl
  · intro rs u count h1 h2
    simp only [badUser, decide_eq_false_iff_not] at h1
    cases count with
    | num c =>
      simp only [badCount] at h2
      simp [createComicPrompt, h1, h2]
    | undefined => simp [createComicPrompt, h1]
    | null => simp [createComicPrompt, h1]
    | bool b => simp [createComicPrompt, h1]
    | str s2 => simp [createComicPrompt, h1]
    | obj => simp [createComicPrompt, h1]
    | arr rs2 => simp [createComicPrompt, h1]

/-- Witness for C2: each of the three validation failures observed on a
concrete call. -/
theorem claim_C2_witness :
    createComicPrompt .null (.str "u") (.num (.finite 3)) = .error "repos must be an array"
    ∧ createComicPrompt (.arr []) (.str " ") (.num (.finite 3)) =
        .error "user must be a non-empty string"
    ∧ createComicPrompt (.arr []) (.str "u") (.num (.finite 0)) =
        .error "count must be a positive number" :=
  ⟨claim_C2.1 .null (.str "u") (.num (.finite 3)) (by decide),
   claim_C2.2.1 [] (.str " ") (.num (.finite 3)) (by decide),
   claim_C2.2.2 [] "u" (.num (.finite 0)) (by decide) (by decide)⟩

/-- Counterexample to C8 as stated: a `count` of positive infinity is a
non-finite value, yet `createComicPrompt` accepts it — the guard
`typeof count !== 'number' || isNaN(count) || count < 1` is false for
`Infinity`, so the call succeeds instead of failing. -/
theorem claim_C8_counterexample :
    createComicPrompt (.arr []) (.str "u") (.num .posInf) = .ok (promptTemplate "u" "") := rfl

theorem jsSliceTo_subset (c : JSNumber) (xs : List RepoVal) : jsSliceTo c xs ⊆ xs := by
  simp only [jsSliceTo]
  exact List.take_subset _ _

/-- C8 (amended): `createComicPrompt` fails with "count must be a
positive number" exactly when `count` is not a number, is NaN, or is
below 1 — zero, negative numbers, NaN and non-numeric values are all
rejected — but positive infinity passes the validation (the guard tests
`count < 1`, not finiteness). Stated with a well-formed repository list
so that no later name check interferes. -/
theorem claim_C8 :
    (∀ (rs : List RepoVal) (u : String) (c : JSArg),
      (jsTrim u).length ≠ 0 → (∀ r ∈ rs, badName r.name = false) →
      (createComicPrompt (.arr rs) (.str u) c = .error "count must be a positive number" ↔
        badCount c = true))
    ∧ badCount (.num .posInf) = false := by
  refine ⟨?_, rfl⟩
  intro rs u c hu hnames
  constructor
  · intro herr
    by_contra hbad
    simp only [Bool.not_eq_true] at hbad
    cases c with
    | num m =>
      simp only [badCount, Bool.or_eq_false_iff] at hbad
      rw [createComicPrompt_valid_eq rs u m hu hbad.1 hbad.2,
        renderReposAux_ok (jsSliceTo m rs) 0
          (fun r hr => hnames r (jsSliceTo_subset m rs hr))] at herr
      simp [Except.map] at herr
    | undefined => simp [badCount] at hbad
    | null => simp [badCount] at hbad
    | bool b => simp [badCount] at hbad
    | str s2 => simp [badCount] at hbad
    | obj => simp [badCount] at hbad
    | arr rs2 => simp [badCount] at hbad
  · intro hbad
    cases c with
    | num m =>
      simp only [badCount] at hbad
      simp [createComicPrompt, hu, hbad]
    | undefined => simp [createComicPrompt, hu]
    | null => simp [createComicPrompt, hu]
    | bool b => simp [createComicPrompt, hu]
    | str s2 => simp [createComicPrompt, hu]
    | obj => simp [createComicPrompt, hu]
    | arr rs2 => simp [createComicPrompt, hu]

/-- Witness for C8: the amended equivalence observed on concrete calls —
`count = 0` is rejected, and `count = Infinity` is not a rejection case. -/
theorem claim_C8_witness :
    (createComicPrompt (.arr []) (.str "u") (.num (.finite 0)) =
        .error "count must be a positive number" ↔ badCount (.num (.finite 0)) = true)
    ∧ badCount (.num .posInf) = false :=
  ⟨claim_C8.1 [] "u" (.num (.finite 0)) (by decide) (by decide), claim_C8.2⟩

/-- C9: every successful prompt contains the literal phrase
"4-panel comic strip" and the username verbatim, and the empty
repository list is valid: the listing section is the empty block and the
surrounding template text is still produced. -/
theorem claim_C9 :
    (∀ (rs : List RepoVal) (u : String) (count : JSArg) (p : String),
      createComicPrompt (.arr rs) (.str u) count = .ok p →
      (∃ a b, p = a ++ ("4-panel comic strip" ++ b)) ∧ (∃ a b, p = a ++ (u ++ b)))
    ∧ createComicPrompt (.arr []) (.str "u") (.num (.finite 3)) = .ok (promptTemplate "u" "") := by
  constructor
  · intro rs u count p h
    obtain ⟨d, rfl⟩ := createComicPrompt_ok_inv h
    constructor
    · refine ⟨"Create a humorous ", " about GitHub user \"" ++ (u ++
        ("\" and their coding projects.\n\nTheir top repositories:\n" ++ (d ++
          "\n\nStyle: Comic book style, colorful, fun and playful. Each panel should tell part of the story about their coding journey. Make it lighthearted and encouraging."))), ?_⟩
      rw [promptTemplate_split]
    · refine ⟨"Create a humorous 4-panel comic strip about GitHub user \"",
        "\" and their coding projects.\n\nTheir top repositories:\n" ++ (d ++
          "\n\nStyle: Comic book style, colorful, fun and playful. Each panel should tell part of the story about their coding journey. Make it lighthearted and encouraging."), ?_⟩
      simp [promptTemplate, strAppend_assoc]
  · rfl

/-- Witness for C9: the containment facts observed on the concrete empty
list call. -/
theorem claim_C9_witness :
    (∃ a b, promptTemplate "u" "" = a ++ ("4-panel comic strip" ++ b))
    ∧ ∃ a b, promptTemplate "u" "" = a ++ ("u" ++ b) :=
  claim_C9.1 [] "u" (.num (.finite 3)) (promptTemplate "u" "") rfl

/-- C5: for every HTTP response, `fetchRepositories` applies the error
contract in order — a non-success status yields a message with the
numeric status and "User not found" for 404, the rate-limit hint for
403, or the raw status text otherwise; a success with a non-array body
yields "Invalid response from GitHub API"; a success with an empty
array yields the no-public-repositories message. -/
theorem claim_C5 (user : String) (status : Nat) (statusText : String) (body : JsonBody)
    (hv : validUsername user = true) :
    (status = 404 → fetchRepositories user ⟨status, statusText, body⟩ =
      .error ("Failed to fetch repos for " ++ user ++ ": " ++ toString status ++ " " ++
        "User not found"))
    ∧ (status = 403 → fetchRepositories user ⟨status, statusText, body⟩ =
      .error ("Failed to fetch repos for " ++ user ++ ": " ++ toString status ++ " " ++
        "API rate limit exceeded. Use GITHUB_TOKEN for higher limits."))
    ∧ (respOk status = false → status ≠ 404 → status ≠ 403 →
      fetchRepositories user ⟨status, statusText, body⟩ =
        .error ("Failed to fetch repos for " ++ user ++ ": " ++ toString status ++ " " ++
          statusText))
    ∧ (respOk status = true → body = .nonArray →
      fetchRepositories user ⟨status, statusText, body⟩ =
        .error "Invalid response from GitHub API")
    ∧ (respOk status = true → body = .arr [] →
      fetchRepositories user ⟨status, statusText, body⟩ =
        .error ("User \x27" ++ user ++ "\x27 has no public repositories")) := by
  refine ⟨?_, ?_, ?_, ?_, ?_⟩
  · intro h
    subst h
    simp [fetchRepositories, hv, handleResponse, respOk, statusDetail]
  · intro h
    subst h
    simp [fetchRepositories, hv, handleResponse, respOk, statusDetail]
  · intro hok h404 h403
    simp [fetchRepositories, hv, handleResponse, hok, statusDetail, h404, h403]
  · intro hok hb
    subst hb
    simp [fetchRepositories, hv, handleResponse, hok]
  · intro hok hb
    subst hb
    simp [fetchRepositories, hv, handleResponse, hok]

/-- Witness for C5: the 404 and empty-array cases observed on concrete
responses for a valid username. -/
theorem claim_C5_witness :
    fetchRepositories "octocat" ⟨404, "Not Found", .nonArray⟩ =
      .error ("Failed to fetch repos for " ++ "octocat" ++ ": " ++ toString 404 ++ " " ++
        "User not found")
    ∧ fetchRepositories "octocat" ⟨200, "OK", .arr []⟩ =
      .error ("User \x27" ++ "octocat" ++ "\x27 has no public repositories") :=
  ⟨(claim_C5 "octocat" 404 "Not Found" .nonArray (by decide)).1 rfl,
   (claim_C5 "octocat" 200 "OK" (.arr []) (by decide)).2.2.2.2 (by decide) rfl⟩

/-- C6: every `Error`-valued failure inside `generateComicImage` — the
provider call throwing an `Error`, zero returned file payloads, or a
first payload whose media type does not begin with "image/" —
propagates with the exact prefix "Failed to generate comic: " before
the original message, while a non-`Error` throwable is re-raised
unchanged. -/
theorem claim_C6 :
    (∀ m, generateComicImage (.fail (.err m)) =
      .error (.err ("Failed to generate comic: " ++ m)))
    ∧ (∀ t, generateComicImage (.fail (.nonError t)) = .error (.nonError t))
    ∧ (∀ finishReason, generateComicImage (.success [] finishReason) =
      .error (.err ("Failed to generate comic: " ++ noImagesMsg finishReason)))
    ∧ (∀ (f : GenFile) (rest : List GenFile) (finishReason : String),
      strStartsWith f.mediaType "image/" = false →
      generateComicImage (.success (f :: rest) finishReason) =
        .error (.err ("Failed to generate comic: " ++ ("Invalid file type: " ++ f.mediaType)))) := by
  refine ⟨fun m => rfl, fun t => rfl, fun finishReason => rfl, ?_⟩
  intro f rest finishReason h
  simp [generateComicImage, generateComicBody, h]

/-- Witness for C6: the media-type failure observed on a concrete
non-image payload. -/
theorem claim_C6_witness :
    generateComicImage (.success [⟨"text/plain"⟩] "stop") =
      .error (.err ("Failed to generate comic: " ++ ("Invalid file type: " ++ "text/plain"))) :=
  claim_C6.2.2.2 ⟨"text/plain"⟩ [] "stop" (by decide)

/-- C4: `fetchRepositories` accepts a username exactly when it matches
the GitHub login grammar (1-39 characters, alphanumeric, hyphens not
leading, trailing, or doubled); a non-matching username fails with
"Invalid GitHub username: " and the input, identically for every
possible network response — the HTTP call is never consulted — while a
matching one proceeds to the response handler. -/
theorem claim_C4 :
    (∀ s, validUsername s = githubLoginGrammar s)
    ∧ (∀ (s : String) (res : HttpResponse), validUsername s = false →
      fetchRepositories s res = .error ("Invalid GitHub username: " ++ s))
    ∧ (∀ (s : String) (res : HttpResponse), validUsername s = true →
      fetchRepositories s res = handleResponse s res) := by
  refine ⟨validUsername_eq_grammar, ?_, ?_⟩
  · intro s res h
    simp [fetchRepositories, h, usernameErrMsg]
  · intro s res h
    simp [fetchRepositories, h]

/-- Witness for C4: a syntactically invalid username is refused on two
different responses with the same message, and a valid one reaches the
response handler. -/
theorem claim_C4_witness :
    fetchRepositories "bad@user" ⟨200, "OK", .nonArray⟩ =
      .error ("Invalid GitHub username: " ++ "bad@user")
    ∧ fetchRepositories "bad@user" ⟨404, "Not Found", .arr []⟩ =
      .error ("Invalid GitHub username: " ++ "bad@user")
    ∧ fetchRepositories "octocat" ⟨200, "OK", .nonArray⟩ =
      handleResponse "octocat" ⟨200, "OK", .nonArray⟩ :=
  ⟨claim_C4.2.1 "bad@user" ⟨200, "OK", .nonArray⟩ (by decide),
   claim_C4.2.1 "bad@user" ⟨404, "Not Found", .arr []⟩ (by decide),
   claim_C4.2.2 "octocat" ⟨200, "OK", .nonArray⟩ (by decide)⟩

/-- C1: with a valid user, a positive integer count, a list of at least
`count` repositories, and valid names among the selected ones, the
prompt is built from exactly the first `count` repositories — rendered
in original order by `linesFrom 0`, whose lines carry the 1-based
display index `idx + 1` — there are exactly `count` such lines, and the
result depends only on the first `count` elements, so no repository at
index ≥ `count` can appear. -/
theorem claim_C1 (rs : List RepoVal) (u : String) (n : Nat)
    (hu : (jsTrim u).length ≠ 0) (hn : 1 ≤ n) (hlen : n ≤ rs.length)
    (hnames : ∀ r ∈ rs.take n, badName r.name = false) :
    createComicPrompt (.arr rs) (.str u) (.num (.finite (n : ℚ))) =
      .ok (promptTemplate u (String.intercalate "\n" (linesFrom 0 (rs.take n))))
    ∧ (rs.take n).length = n
    ∧ (linesFrom 0 (rs.take n)).length = n
    ∧ ∀ rs2 : List RepoVal, rs2.take n = rs.take n →
      createComicPrompt (.arr rs2) (.str u) (.num (.finite (n : ℚ))) =
        createComicPrompt (.arr rs) (.str u) (.num (.finite (n : ℚ))) := by
  have hnan : (JSNumber.finite (n : ℚ)).isNaNb = false := rfl
  have hlt : (JSNumber.finite (n : ℚ)).jsLtOne = false := by
    simp only [JSNumber.jsLtOne, decide_eq_false_iff_not, not_lt]
    exact_mod_cast hn
  have hslice := jsSliceTo_natCast rs n
  refine ⟨?_, ?_, ?_, ?_⟩
  · rw [createComicPrompt_valid_eq rs u _ hu hnan hlt, hslice,
      renderReposAux_ok (rs.take n) 0 hnames]
    rfl
  · rw [List.length_take]
    omega
  · rw [linesFrom_length, List.length_take]
    omega
  · intro rs2 h2
    rw [createComicPrompt_valid_eq rs2 u _ hu hnan hlt,
      createComicPrompt_valid_eq rs u _ hu hnan hlt,
      jsSliceTo_natCast, jsSliceTo_natCast, h2]

/-- Witness for C1: the first of two repositories selected with
`count = 1`, and a differing second repository does not change the
prompt. -/
theorem claim_C1_witness :
    createComicPrompt
        (.arr [⟨.str "a", .null, .undefined, .undefined⟩,
               ⟨.str "b", .null, .undefined, .undefined⟩])
        (.str "u") (.num (.finite (1 : ℚ))) =
      .ok (promptTemplate "u" (String.intercalate "\n"
        (linesFrom 0 ([⟨.str "a", .null, .undefined, .undefined⟩,
                       ⟨.str "b", .null, .undefined, .undefined⟩].take 1))))
    ∧ ([(⟨.str "a", .null, .undefined, .undefined⟩ : RepoVal),
        ⟨.str "b", .null, .undefined, .undefined⟩].take 1).length = 1 :=
  ⟨(claim_C1 [⟨.str "a", .null, .undefined, .undefined⟩,
      ⟨.str "b", .null, .undefined, .undefined⟩] "u" 1
      (by decide) (by decide) (by decide) (by decide)).1,
   (claim_C1 [⟨.str "a", .null, .undefined, .undefined⟩,
      ⟨.str "b", .null, .undefined, .undefined⟩] "u" 1
      (by decide) (by decide) (by decide) (by decide)).2.1⟩

/-- C10: a non-integer numeric count of at least 1 (such as 2.5) passes
validation, and the selection uses slice semantics: the prompt is built
from the first `⌊count⌋` repositories, the selected list having length
`min ⌊count⌋ (length of repos)`. -/
theorem claim_C10 (rs : List RepoVal) (u : String) (q : ℚ)
    (hu : (jsTrim u).length ≠ 0) (hq : 1 ≤ q) (_hden : q.den ≠ 1)
    (hnames : ∀ r ∈ rs, badName r.name = false) :
    createComicPrompt (.arr rs) (.str u) (.num (.finite q)) =
      .ok (promptTemplate u (String.intercalate "\n"
        (linesFrom 0 (rs.take (Rat.floor q).toNat))))
    ∧ (rs.take (Rat.floor q).toNat).length = min (Rat.floor q).toNat rs.length := by
  have hnan : (JSNumber.finite q).isNaNb = false := rfl
  have hlt : (JSNumber.finite q).jsLtOne = false := by
    simp only [JSNumber.jsLtOne, decide_eq_false_iff_not, not_lt]
    exact hq
  refine ⟨?_, List.length_take _ _⟩
  rw [createComicPrompt_valid_eq rs u _ hu hnan hlt, jsSliceTo_one_le rs q hq,
    renderReposAux_ok _ 0 (fun r hr => hnames r (List.take_subset _ _ hr))]
  rfl

/-- Witness for C10: `count = 5/2` on a four-element list selects the
first two repositories. -/
theorem claim_C10_witness :
    createComicPrompt
        (.arr [⟨.str "a", .null, .undefined, .undefined⟩,
               ⟨.str "b", .null, .undefined, .undefined⟩,
               ⟨.str "c", .null, .undefined, .undefined⟩,
               ⟨.str "d", .null, .undefined, .undefined⟩])
        (.str "u") (.num (.finite (⟨5, 2, by decide, by decide⟩ : ℚ))) =
      .ok (promptTemplate "u" (String.intercalate "\n"
        (linesFrom 0 ([⟨.str "a", .null, .undefined, .undefined⟩,
                       ⟨.str "b", .null, .undefined, .undefined⟩,
                       ⟨.str "c", .null, .undefined, .undefined⟩,
                       ⟨.str "d", .null, .undefined, .undefined⟩].take
          (Rat.floor (⟨5, 2, by decide, by decide⟩ : ℚ)).toNat))))
    ∧ ([(⟨.str "a", .null, .undefined, .undefined⟩ : RepoVal),
        ⟨.str "b", .null, .undefined, .undefined⟩,
        ⟨.str "c", .null, .undefined, .undefined⟩,
        ⟨.str "d", .null, .undefined, .undefined⟩].take
          (Rat.floor (⟨5, 2, by decide, by decide⟩ : ℚ)).toNat).length =
      min (Rat.floor (⟨5, 2, by decide, by decide⟩ : ℚ)).toNat 4 :=
  claim_C10 [⟨.str "a", .null, .undefined, .undefined⟩,
      ⟨.str "b", .null, .undefined, .undefined⟩,
      ⟨.str "c", .null, .undefined, .undefined⟩,
      ⟨.str "d", .null, .undefined, .undefined⟩] "u" (⟨5, 2, by decide, by decide⟩ : ℚ)
    (by decide) (by decide) (by decide) (by decide)

/-- Counterexample to C7 as stated: a repository whose `name` is the
empty string — present, and a string — still fails the name check,
because the guard `!r.name` is truthiness, so the failure condition is
not "absent or not a string". -/
theorem claim_C7_counterexample :
    createComicPrompt (.arr [⟨.str "", .null, .undefined, .undefined⟩]) (.str "u")
        (.num (.finite 1)) = .error "Repository at index 0 is missing required field: name"
    ∧ (RepoVal.mk (.str "") .null .undefined .undefined).name = .str "" :=
  ⟨rfl, rfl⟩

/-- C7 (amended): with valid repos, user and count, `createComicPrompt`
fails with "Repository at index idx is missing required field: name"
where `idx` is the 0-based position of the first selected repository
whose name is falsy or not a string (absent, non-string, or the empty
string); when every selected repository has a non-empty string name the
call succeeds, so a malformed repository beyond the selection never
causes a failure. -/
theorem claim_C7 (rs : List RepoVal) (u : String) (c : JSNumber)
    (hu : (jsTrim u).length ≠ 0) (hnan : c.isNaNb = false) (hlt : c.jsLtOne = false) :
    (∀ j, firstBadIdx 0 (jsSliceTo c rs) = some j →
      createComicPrompt (.arr rs) (.str u) (.num c) = .error (nameErrMsg j))
    ∧ (firstBadIdx 0 (jsSliceTo c rs) = none →
      createComicPrompt (.arr rs) (.str u) (.num c) =
        .ok (promptTemplate u (String.intercalate "\n" (linesFrom 0 (jsSliceTo c rs)))))
    ∧ (firstBadIdx 0 (jsSliceTo c rs) = none ↔
      ∀ r ∈ jsSliceTo c rs, badName r.name = false) := by
  refine ⟨?_, ?_, firstBadIdx_none_iff _ 0⟩
  · intro j hj
    rw [createComicPrompt_valid_eq rs u c hu hnan hlt,
      renderReposAux_err _ 0 j hj]
    rfl
  · intro hnone
    rw [createComicPrompt_valid_eq rs u c hu hnan hlt,
      renderReposAux_ok _ 0 ((firstBadIdx_none_iff _ 0).mp hnone)]
    rfl

/-- Witness for C7: among three selected repositories the second is the
first with a bad name (a number), and the reported index is 1; a good
selection beyond which a malformed repository sits still succeeds. -/
theorem claim_C7_witness :
    createComicPrompt
        (.arr [⟨.str "a", .null, .undefined, .undefined⟩,
               ⟨.num (.finite 7), .null, .undefined, .undefined⟩,
               ⟨.str "c", .null, .undefined, .undefined⟩])
        (.str "u") (.num (.finite 3)) =
      .error (nameErrMsg 1)
    ∧ createComicPrompt
        (.arr [⟨.str "a", .null, .undefined, .undefined⟩,
               ⟨.undefined, .null, .undefined, .undefined⟩])
        (.str "u") (.num (.finite 1)) =
      .ok (promptTemplate "u" (String.intercalate "\n"
        (linesFrom 0 (jsSliceTo (.finite 1)
          [⟨.str "a", .null, .undefined, .undefined⟩,
           ⟨.undefined, .null, .undefined, .undefined⟩])))) :=
  ⟨(claim_C7 [⟨.str "a", .null, .undefined, .undefined⟩,
      ⟨.num (.finite 7), .null, .undefined, .undefined⟩,
      ⟨.str "c", .null, .undefined, .undefined⟩] "u" (.finite 3)
      (by decide) rfl (by decide)).1 1 (by decide),
   (claim_C7 [⟨.str "a", .null, .undefined, .undefined⟩,
      ⟨.undefined, .null, .undefined, .undefined⟩] "u" (.finite 1)
      (by decide) rfl (by decide)).2.1 (by decide)⟩

/-- C3: for a selected repository with a valid name, a `starCount` of
exactly 0 renders identically to an absent (`undefined`) one — no star
segment, the check being truthiness rather than presence — while any
nonzero integer `starCount` such as 1000 renders a star segment
containing that number. -/
theorem claim_C3 (idx : Nat) (s : String) (desc lang : JSVal) (hs : s ≠ "") :
    renderRepo idx ⟨.str s, desc, .num (.finite 0), lang⟩ =
      renderRepo idx ⟨.str s, desc, .undefined, lang⟩
    ∧ ∀ k : ℤ, k ≠ 0 →
      (∃ a b, renderRepo idx ⟨.str s, desc, .num (.finite (k : ℚ)), lang⟩ =
        .ok (a ++ (starSeg (.num (.finite (k : ℚ))) ++ b)))
      ∧ starSeg (.num (.finite (k : ℚ))) = " (‚≠ê " ++ toString k ++ ")" := by
  have hbad : badName (.str s) = false := by simp [badName, hs]
  constructor
  · simp [renderRepo, hbad, lineOf, starSeg, JSVal.truthy, JSNumber.truthy]
  · intro k hk
    have htru : (JSVal.num (.finite (k : ℚ))).truthy = true := by
      simp only [JSVal.truthy, JSNumber.truthy, decide_eq_true_eq]
      exact_mod_cast hk
    constructor
    · refine ⟨toString (idx + 1) ++ ". " ++ s ++ langSeg lang,
        ": " ++ descText desc, ?_⟩
      simp [renderRepo, hbad, lineOf, JSVal.render, strAppend_assoc]
    · simp only [starSeg, htru, if_true, JSVal.render, JSNumber.render,
        Rat.den_intCast, Rat.num_intCast]

/-- Witness for C3: index 0, name "r", null description, no language —
the zero-star line equals the undefined-star line, and 1000 stars
render a star segment containing "1000". -/
theorem claim_C3_witness :
    renderRepo 0 ⟨.str "r", .null, .num (.finite 0), .undefined⟩ =
      renderRepo 0 ⟨.str "r", .null, .undefined, .undefined⟩
    ∧ (∃ a b, renderRepo 0 ⟨.str "r", .null, .num (.finite ((1000 : ℤ) : ℚ)), .undefined⟩ =
        .ok (a ++ (starSeg (.num (.finite ((1000 : ℤ) : ℚ))) ++ b)))
    ∧ starSeg (.num (.finite ((1000 : ℤ) : ℚ))) = " (‚≠ê " ++ toString (1000 : ℤ) ++ ")" :=
  ⟨(claim_C3 0 "r" .null .undefined (by decide)).1,
   ((claim_C3 0 "r" .null .undefined (by decide)).2 1000 (by decide)).1,
   ((claim_C3 0 "r" .null .undefined (by decide)).2 1000 (by decide)).2⟩
